import Mathlib

/-!
Shallow embedding of the unanimous-closing state machine of the arbitrum
validator (`src/validator/unanimous.go`).

The four closing states (`attemptingUnanimousClosing`,
`attemptingOffchainClosing`, `waitingOffchainClosing`,
`finalizingOffchainClosing`) each implement `UpdateTime` and `UpdateState`.
Go side effects are made explicit in the result records:
- sends on the one-shot result channel `retChan` are recorded in `sent`
  (a send happens only when the channel is non-nil, which is modelled by
  the boolean presence flag `retChan`);
- calls to `validatorCore.DeliverMessagesToVM` are counted in `vmCalls`.
Go `uint64` values are modelled as `Nat`; the single arithmetic operation
(`time + GracePeriod`) wraps modulo `2 ^ 64` as in Go.
-/

/-- Modelled from the spec: the configuration block referenced by
`bot.config.GracePeriod`, whose type is not under `src/`.  `GracePeriod` is
the fixed grace-period configuration constant (a `uint64`, modelled as
`Nat`). -/
structure ValConfig where
  GracePeriod : Nat
deriving DecidableEq, Repr

/-- Modelled from the spec: the `validatorConfig` struct is not under
`src/`; the closing states only read `bot.config.GracePeriod` through it. -/
structure validatorConfig where
  config : ValConfig
deriving DecidableEq, Repr

/-- Modelled from the spec: the `validatorCore` struct is not under `src/`.
The closing states use it only to (a) read the current inbox content hash
`bot.validatorCore.inbox.Receive().Hash()`, modelled by the field
`inboxReceiveHash`, and (b) call `DeliverMessagesToVM`, modelled as a
counted effect in the step results. -/
structure validatorCore where
  inboxReceiveHash : Nat
deriving DecidableEq, Repr

/-- Modelled from the spec: `GetCore` (not under `src/`) returns the shared
validator core. -/
def validatorCore.GetCore (c : validatorCore) : validatorCore := c

/-- The opaque `*protocol.Assertion` snapshot; never inspected or mutated
by this core, so it is modelled by an opaque identifier. -/
abbrev Assertion := Nat

/-- The inbound `ethbridge.Event` taxonomy.  The four event types named in
`unanimous.go` are explicit constructors; `otherEvent` stands for every
other event type of the bridge taxonomy, which all fall into the `default`
branches of the Go type-switches. -/
inductive Event where
  | ProposedUnanimousAssertEvent (SequenceNum : Nat)
  | DisputableAssertionEvent
  | FinalUnanimousAssertEvent
  | ConfirmedUnanimousAssertEvent
  | otherEvent (tag : Nat)
deriving DecidableEq, Repr

/-- The outbound message taxonomy produced by the closing states: only
`valmessage.SendConfirmUnanimousAssertedMessage{NewInboxHash, Assertion}`
is ever constructed in `unanimous.go`. -/
inductive OutgoingMessage where
  | SendConfirmUnanimousAssertedMessage (NewInboxHash : Nat) (Assertion : Assertion)
deriving DecidableEq, Repr

/-- Go `error` values returned by the closing states: `errorsNew msg`
models `errors.New(msg)`, and `validatorError msg` models
`&Error{nil, msg}` (the wrapped inner error is `nil` at every construction
site in `unanimous.go`, so it is omitted). -/
inductive GoError where
  | errorsNew (msg : String)
  | validatorError (msg : String)
deriving DecidableEq, Repr

/-- The `challengeState` interface value: every `UpdateState` in
`unanimous.go` returns `nil` for it, so its carrier is irrelevant. -/
abbrev challengeState := Unit

/-- The message of `errors.New` in the superseded-by-higher-sequence-number
branch of `attemptingOffchainClosing.UpdateState`. -/
def supersededMessage : String := "unanimous assertion unexpectedly superseded"

/-- The message of `errors.New` in the superseded-by-final-assert branches. -/
def supersededByFinalMessage : String := "unanimous assertion unexpectedly superseded by final assert"

/-- The message of `errors.New` in the superseded-by-sequence-number branch
of `waitingOffchainClosing.UpdateState`. -/
def supersededBySeqMessage : String := "unanimous assertion unexpectedly superseded by sequence number"

/-- The message of the `&Error{nil, ...}` desynchronization error shared by
every `default` branch in `unanimous.go`. -/
def desyncMessage : String := "ERROR: waitingAssertDefender: VM state got unsynchronized"

/-- The state-desynchronization error value `&Error{nil, desyncMessage}`. -/
def desyncError : GoError := .validatorError desyncMessage

/-- The `attemptingUnanimousClosing` struct of `unanimous.go`.  `retChan`
records whether the one-shot result channel is non-nil. -/
structure attemptingUnanimousClosing where
  validatorConfig : validatorConfig
  validatorCore : validatorCore
  assertion : Assertion
  retChan : Bool
deriving DecidableEq, Repr

/-- The `attemptingOffchainClosing` struct of `unanimous.go`. -/
structure attemptingOffchainClosing where
  validatorConfig : validatorConfig
  validatorCore : validatorCore
  sequenceNum : Nat
  assertion : Assertion
  retChan : Bool
deriving DecidableEq, Repr

/-- The `waitingOffchainClosing` struct of `unanimous.go`. -/
structure waitingOffchainClosing where
  validatorConfig : validatorConfig
  validatorCore : validatorCore
  assertion : Assertion
  deadline : Nat
  retChan : Bool
deriving DecidableEq, Repr

/-- The `finalizingOffchainClosing` struct of `unanimous.go`. -/
structure finalizingOffchainClosing where
  validatorConfig : validatorConfig
  validatorCore : validatorCore
  retChan : Bool
deriving DecidableEq, Repr

/-- The `validatorState` interface: the four closing states of
`unanimous.go`, plus the terminal waiting-observer successor state that
success paths transition into (its own behavior is outside this core). -/
inductive ValidatorState where
  | attemptingUnanimousClosing (bot : attemptingUnanimousClosing)
  | attemptingOffchainClosing (bot : attemptingOffchainClosing)
  | waitingOffchainClosing (bot : waitingOffchainClosing)
  | finalizingOffchainClosing (bot : finalizingOffchainClosing)
  | waitingObserver (config : validatorConfig) (core : validatorCore)
deriving DecidableEq, Repr

/-- Modelled from the spec: `NewWaitingObserver` (not under `src/`)
constructs the terminal waiting-observer successor state from the config
and the shared core; it does not carry the round's `retChan`. -/
def NewWaitingObserver (config : validatorConfig) (core : validatorCore) : ValidatorState :=
  .waitingObserver config core

/-- Result of an `UpdateTime` call: `(validatorState, []OutgoingMessage,
error)`, with `none` standing for a `nil` interface value. -/
structure TimeResult where
  state : Option ValidatorState
  msgs : List OutgoingMessage
  err : Option GoError
deriving DecidableEq, Repr

/-- Result of an `UpdateState` call: `(validatorState, challengeState,
[]OutgoingMessage, error)`, extended with the call's recorded side effects:
`sent` is the list of booleans sent on `retChan` during the call (empty
when the channel is nil), and `vmCalls` counts the
`DeliverMessagesToVM` invocations made by the call. -/
structure StateResult where
  state : Option ValidatorState
  challenge : Option challengeState
  msgs : List OutgoingMessage
  err : Option GoError
  sent : List Bool
  vmCalls : Nat
deriving DecidableEq, Repr

/-- `attemptingUnanimousClosing.UpdateTime`: unconditional no-op. -/
def attemptingUnanimousClosing.UpdateTime (bot : attemptingUnanimousClosing)
    (_time : Nat) : TimeResult :=
  ⟨some (.attemptingUnanimousClosing bot), [], none⟩

/-- `attemptingUnanimousClosing.UpdateState`, clause by clause from the Go
type-switch. -/
def attemptingUnanimousClosing.UpdateState (bot : attemptingUnanimousClosing)
    (ev : Event) (_time : Nat) : StateResult :=
  match ev with
  | .ProposedUnanimousAssertEvent _ =>
      ⟨some (.attemptingUnanimousClosing bot), none, [], none, [], 0⟩
  | .DisputableAssertionEvent =>
      ⟨some (.attemptingUnanimousClosing bot), none, [], none, [], 0⟩
  | .FinalUnanimousAssertEvent =>
      ⟨some (NewWaitingObserver bot.validatorConfig bot.validatorCore), none, [], none,
        (if bot.retChan then [true] else []), 1⟩
  | _ =>
      ⟨none, none, [], some desyncError, [], 0⟩

/-- `attemptingOffchainClosing.UpdateTime`: unconditional no-op. -/
def attemptingOffchainClosing.UpdateTime (bot : attemptingOffchainClosing)
    (_time : Nat) : TimeResult :=
  ⟨some (.attemptingOffchainClosing bot), [], none⟩

/-- `attemptingOffchainClosing.UpdateState`, clause by clause from the Go
type-switch; the deadline is computed by the wrapping `uint64` addition
`time + bot.config.GracePeriod`. -/
def attemptingOffchainClosing.UpdateState (bot : attemptingOffchainClosing)
    (ev : Event) (time : Nat) : StateResult :=
  match ev with
  | .ProposedUnanimousAssertEvent SequenceNum =>
      if SequenceNum < bot.sequenceNum then
        ⟨some (.attemptingOffchainClosing bot), none, [], none, [], 0⟩
      else if SequenceNum > bot.sequenceNum then
        ⟨none, none, [], some (.errorsNew supersededMessage),
          (if bot.retChan then [false] else []), 0⟩
      else
        ⟨some (.waitingOffchainClosing
            ⟨bot.validatorConfig, bot.validatorCore.GetCore, bot.assertion,
              (time + bot.validatorConfig.config.GracePeriod) % 2 ^ 64, bot.retChan⟩),
          none, [], none, [], 0⟩
  | .DisputableAssertionEvent =>
      ⟨some (.attemptingOffchainClosing bot), none, [], none, [], 0⟩
  | .FinalUnanimousAssertEvent =>
      ⟨none, none, [], some (.errorsNew supersededByFinalMessage),
        (if bot.retChan then [false] else []), 0⟩
  | _ =>
      ⟨none, none, [], some desyncError,
        (if bot.retChan then [false] else []), 0⟩

/-- `waitingOffchainClosing.UpdateTime`: strict deadline comparison
`time > bot.deadline` triggers the transition to
`finalizingOffchainClosing` with the single confirm message. -/
def waitingOffchainClosing.UpdateTime (bot : waitingOffchainClosing)
    (time : Nat) : TimeResult :=
  if time > bot.deadline then
    ⟨some (.finalizingOffchainClosing ⟨bot.validatorConfig, bot.validatorCore, bot.retChan⟩),
      [.SendConfirmUnanimousAssertedMessage bot.validatorCore.inboxReceiveHash bot.assertion],
      none⟩
  else
    ⟨some (.waitingOffchainClosing bot), [], none⟩

/-- `waitingOffchainClosing.UpdateState`, clause by clause from the Go
type-switch: every event terminates the round. -/
def waitingOffchainClosing.UpdateState (bot : waitingOffchainClosing)
    (ev : Event) (_time : Nat) : StateResult :=
  match ev with
  | .ProposedUnanimousAssertEvent _ =>
      ⟨none, none, [], some (.errorsNew supersededBySeqMessage),
        (if bot.retChan then [false] else []), 0⟩
  | .FinalUnanimousAssertEvent =>
      ⟨none, none, [], some (.errorsNew supersededByFinalMessage),
        (if bot.retChan then [false] else []), 0⟩
  | _ =>
      ⟨none, none, [], some desyncError,
        (if bot.retChan then [false] else []), 0⟩

/-- `finalizingOffchainClosing.UpdateTime`: unconditional no-op. -/
def finalizingOffchainClosing.UpdateTime (bot : finalizingOffchainClosing)
    (_time : Nat) : TimeResult :=
  ⟨some (.finalizingOffchainClosing bot), [], none⟩

/-- `finalizingOffchainClosing.UpdateState`, clause by clause from the Go
type-switch. -/
def finalizingOffchainClosing.UpdateState (bot : finalizingOffchainClosing)
    (ev : Event) (_time : Nat) : StateResult :=
  match ev with
  | .ConfirmedUnanimousAssertEvent =>
      ⟨some (NewWaitingObserver bot.validatorConfig bot.validatorCore), none, [], none,
        (if bot.retChan then [true] else []), 1⟩
  | _ =>
      ⟨none, none, [], some desyncError, [], 0⟩

/-- One driver call on the current state: either `advanceTime(t)`
(`UpdateTime`) or `handleEvent(ev, t)` (`UpdateState`). -/
inductive DriverInput where
  | advanceTime (time : Nat)
  | handleEvent (ev : Event) (time : Nat)
deriving DecidableEq, Repr

/-- The common shape of one driver call's outcome, with the recorded
side effects. -/
structure StepOut where
  state : Option ValidatorState
  msgs : List OutgoingMessage
  err : Option GoError
  sent : List Bool
  vmCalls : Nat
deriving DecidableEq, Repr

/-- Lift an `UpdateTime` result (which performs no sends and no VM
deliveries: the Go bodies never touch `retChan` or the core) to `StepOut`. -/
def liftTime (r : TimeResult) : StepOut := ⟨r.state, r.msgs, r.err, [], 0⟩

/-- Lift an `UpdateState` result to `StepOut`. -/
def liftState (r : StateResult) : StepOut := ⟨r.state, r.msgs, r.err, r.sent, r.vmCalls⟩

/-- Dispatch one driver input to the current state's method, as the Go
interface dispatch does.  `none` on the waiting-observer successor: its
methods are outside this core, and it no longer holds the round's
`retChan`. -/
def closingStep : ValidatorState → DriverInput → Option StepOut
  | .attemptingUnanimousClosing bot, .advanceTime t => some (liftTime (bot.UpdateTime t))
  | .attemptingUnanimousClosing bot, .handleEvent ev t => some (liftState (bot.UpdateState ev t))
  | .attemptingOffchainClosing bot, .advanceTime t => some (liftTime (bot.UpdateTime t))
  | .attemptingOffchainClosing bot, .handleEvent ev t => some (liftState (bot.UpdateState ev t))
  | .waitingOffchainClosing bot, .advanceTime t => some (liftTime (bot.UpdateTime t))
  | .waitingOffchainClosing bot, .handleEvent ev t => some (liftState (bot.UpdateState ev t))
  | .finalizingOffchainClosing bot, .advanceTime t => some (liftTime (bot.UpdateTime t))
  | .finalizingOffchainClosing bot, .handleEvent ev t => some (liftState (bot.UpdateState ev t))
  | .waitingObserver _ _, _ => none

/-- Accumulated outcome of a driver run: final state, and every value sent
on `retChan`, every outgoing message, and every VM delivery over the run. -/
structure RunOut where
  state : Option ValidatorState
  sent : List Bool
  msgs : List OutgoingMessage
  vmCalls : Nat
deriving DecidableEq, Repr

/-- The driver loop: feed the inputs one at a time, strictly serialized,
stopping once a `nil` next state is returned or the machine leaves the
closing subsystem (the waiting-observer successor is outside this core and
holds no reference to the round's `retChan`). -/
def driverRun : Option ValidatorState → List DriverInput → RunOut
  | none, _ => ⟨none, [], [], 0⟩
  | some s, [] => ⟨some s, [], [], 0⟩
  | some s, i :: rest =>
      match closingStep s i with
      | none => ⟨some s, [], [], 0⟩
      | some r =>
          let out := driverRun r.state rest
          ⟨out.state, r.sent ++ out.sent, r.msgs ++ out.msgs, r.vmCalls + out.vmCalls⟩

/-- Number of values that may still be sent on the round's `retChan` from a
given state: 1 while a closing state holds a non-nil channel, 0 otherwise. -/
def sendPot : ValidatorState → Nat
  | .attemptingUnanimousClosing bot => if bot.retChan then 1 else 0
  | .attemptingOffchainClosing bot => if bot.retChan then 1 else 0
  | .waitingOffchainClosing bot => if bot.retChan then 1 else 0
  | .finalizingOffchainClosing bot => if bot.retChan then 1 else 0
  | .waitingObserver _ _ => 0

/-- `sendPot` lifted to a possibly-nil state. -/
def sendPotO : Option ValidatorState → Nat
  | none => 0
  | some s => sendPot s

/-- Number of outgoing messages a state may still emit: 1 before the
waiting-offchain deadline transition has fired, 0 after. -/
def msgPot : ValidatorState → Nat
  | .attemptingUnanimousClosing _ => 0
  | .attemptingOffchainClosing _ => 1
  | .waitingOffchainClosing _ => 1
  | .finalizingOffchainClosing _ => 0
  | .waitingObserver _ _ => 0

/-- `msgPot` lifted to a possibly-nil state. -/
def msgPotO : Option ValidatorState → Nat
  | none => 0
  | some s => msgPot s

/-- A time value that must leave the given state unchanged: any value for
the three states whose `UpdateTime` is an unconditional no-op, and any
value not exceeding the deadline for `waitingOffchainClosing`. -/
def nonTriggering : ValidatorState → Nat → Bool
  | .waitingOffchainClosing bot, t => t ≤ bot.deadline
  | _, _ => true

theorem closingStep_sent_bound (s : ValidatorState) (i : DriverInput) (r : StepOut)
    (h : closingStep s i = some r) :
    r.sent.length + sendPotO r.state ≤ sendPot s := by
  cases s with
  | waitingObserver c k => simp [closingStep] at h
  | attemptingUnanimousClosing bot =>
    cases i with
    | advanceTime t =>
      simp only [closingStep, liftTime, attemptingUnanimousClosing.UpdateTime,
        Option.some.injEq] at h
      subst h
      simp [sendPot, sendPotO]
    | handleEvent ev t =>
      cases ev <;>
        simp only [closingStep, liftState, attemptingUnanimousClosing.UpdateState,
          NewWaitingObserver, Option.some.injEq] at h <;>
        subst h <;>
        cases hrc : bot.retChan <;>
        simp [sendPot, sendPotO, hrc]
  | attemptingOffchainClosing bot =>
    cases i with
    | advanceTime t =>
      simp only [closingStep, liftTime, attemptingOffchainClosing.UpdateTime,
        Option.some.injEq] at h
      subst h
      simp [sendPot, sendPotO]
    | handleEvent ev t =>
      cases ev <;>
        simp only [closingStep, liftState, attemptingOffchainClosing.UpdateState,
          Option.some.injEq] at h <;>
        first
        | (split_ifs at h <;> subst h <;> simp_all [sendPot, sendPotO])
        | (subst h <;> simp_all [sendPot, sendPotO])
  | waitingOffchainClosing bot =>
    cases i with
    | advanceTime t =>
      simp only [closingStep, liftTime, waitingOffchainClosing.UpdateTime] at h
      split_ifs at h <;>
        simp only [Option.some.injEq] at h <;>
        subst h <;>
        cases hrc : bot.retChan <;>
        simp [sendPot, sendPotO, hrc]
    | handleEvent ev t =>
      cases ev <;>
        simp only [closingStep, liftState, waitingOffchainClosing.UpdateState,
          Option.some.injEq] at h <;>
        subst h <;>
        cases hrc : bot.retChan <;>
        simp [sendPot, sendPotO, hrc]
  | finalizingOffchainClosing bot =>
    cases i with
    | advanceTime t =>
      simp only [closingStep, liftTime, finalizingOffchainClosing.UpdateTime,
        Option.some.injEq] at h
      subst h
      simp [sendPot, sendPotO]
    | handleEvent ev t =>
      cases ev <;>
        simp only [closingStep, liftState, finalizingOffchainClosing.UpdateState,
          NewWaitingObserver, Option.some.injEq] at h <;>
        subst h <;>
        cases hrc : bot.retChan <;>
        simp [sendPot, sendPotO, hrc]

theorem driverRun_sent_bound (inputs : List DriverInput) :
    ∀ os : Option ValidatorState, (driverRun os inputs).sent.length ≤ sendPotO os := by
  induction inputs with
  | nil => intro os; cases os <;> simp [driverRun, sendPotO]
  | cons i rest ih =>
    intro os
    cases os with
    | none => simp [driverRun, sendPotO]
    | some s =>
      cases hstep : closingStep s i with
      | none => simp [driverRun, hstep, sendPotO]
      | some r =>
        have hb := closingStep_sent_bound s i r hstep
        have hr := ih r.state
        simp only [driverRun, hstep, List.length_append, sendPotO]
        omega

theorem sendPot_le_one (s : ValidatorState) : sendPot s ≤ 1 := by
  cases s <;> simp only [sendPot] <;> first | omega | (split_ifs <;> omega)

/-- Claim C1: over any sequence of `advanceTime`/`UpdateTime` and
`handleEvent`/`UpdateState` driver calls on a single round — starting from
any state and stopping once a `nil` next state is returned or the machine
leaves the closing subsystem — at most one boolean value is ever sent on
the round's result handoff channel `retChan`. -/
theorem C1_at_most_one_send (s : ValidatorState) (inputs : List DriverInput) :
    (driverRun (some s) inputs).sent.length ≤ 1 := by
  have h := driverRun_sent_bound inputs (some s)
  have h2 := sendPot_le_one s
  simp only [sendPotO] at h
  omega

theorem closingStep_msg_bound (s : ValidatorState) (i : DriverInput) (r : StepOut)
    (h : closingStep s i = some r) :
    r.msgs.length + msgPotO r.state ≤ msgPot s := by
  cases s with
  | waitingObserver c k => simp [closingStep] at h
  | attemptingUnanimousClosing bot =>
    cases i with
    | advanceTime t =>
      simp only [closingStep, liftTime, attemptingUnanimousClosing.UpdateTime,
        Option.some.injEq] at h
      subst h
      simp [msgPot, msgPotO]
    | handleEvent ev t =>
      cases ev <;>
        simp only [closingStep, liftState, attemptingUnanimousClosing.UpdateState,
          NewWaitingObserver, Option.some.injEq] at h <;>
        subst h <;>
        simp [msgPot, msgPotO]
  | attemptingOffchainClosing bot =>
    cases i with
    | advanceTime t =>
      simp only [closingStep, liftTime, attemptingOffchainClosing.UpdateTime,
        Option.some.injEq] at h
      subst h
      simp [msgPot, msgPotO]
    | handleEvent ev t =>
      cases ev <;>
        simp only [closingStep, liftState, attemptingOffchainClosing.UpdateState,
          Option.some.injEq] at h <;>
        first
        | (split_ifs at h <;> subst h <;> simp_all [msgPot, msgPotO])
        | (subst h <;> simp_all [msgPot, msgPotO])
  | waitingOffchainClosing bot =>
    cases i with
    | advanceTime t =>
      simp only [closingStep, liftTime, waitingOffchainClosing.UpdateTime] at h
      split_ifs at h <;>
        simp only [Option.some.injEq] at h <;>
        subst h <;>
        simp [msgPot, msgPotO]
    | handleEvent ev t =>
      cases ev <;>
        simp only [closingStep, liftState, waitingOffchainClosing.UpdateState,
          Option.some.injEq] at h <;>
        subst h <;>
        simp [msgPot, msgPotO]
  | finalizingOffchainClosing bot =>
    cases i with
    | advanceTime t =>
      simp only [closingStep, liftTime, finalizingOffchainClosing.UpdateTime,
        Option.some.injEq] at h
      subst h
      simp [msgPot, msgPotO]
    | handleEvent ev t =>
      cases ev <;>
        simp only [closingStep, liftState, finalizingOffchainClosing.UpdateState,
          NewWaitingObserver, Option.some.injEq] at h <;>
        subst h <;>
        simp [msgPot, msgPotO]

theorem driverRun_msg_bound (inputs : List DriverInput) :
    ∀ os : Option ValidatorState, (driverRun os inputs).msgs.length ≤ msgPotO os := by
  induction inputs with
  | nil => intro os; cases os <;> simp [driverRun, msgPotO]
  | cons i rest ih =>
    intro os
    cases os with
    | none => simp [driverRun, msgPotO]
    | some s =>
      cases hstep : closingStep s i with
      | none => simp [driverRun, hstep, msgPotO]
      | some r =>
        have hb := closingStep_msg_bound s i r hstep
        have hr := ih r.state
        simp only [driverRun, hstep, List.length_append, msgPotO]
        omega

theorem msgPot_le_one (s : ValidatorState) : msgPot s ≤ 1 := by
  cases s <;> simp [msgPot]

/-- Claim C2: for every `waitingOffchainClosing` state with deadline `D`,
`UpdateTime t` with `t ≤ D` returns the same state unchanged with no
outgoing messages and no error, and `UpdateTime t` with `t > D` transitions
to `finalizingOffchainClosing`; the deadline comparison is strict. -/
theorem C2_strict_deadline (bot : waitingOffchainClosing) (t : Nat) :
    (t ≤ bot.deadline →
      bot.UpdateTime t = ⟨some (.waitingOffchainClosing bot), [], none⟩) ∧
    (bot.deadline < t →
      (bot.UpdateTime t).state =
        some (.finalizingOffchainClosing
          ⟨bot.validatorConfig, bot.validatorCore, bot.retChan⟩)) := by
  constructor
  · intro hle
    simp [waitingOffchainClosing.UpdateTime, Nat.not_lt.mpr hle]
  · intro hlt
    simp [waitingOffchainClosing.UpdateTime, hlt]

/-- Witness for C2 at deadline 30: `UpdateTime 30` is a no-op and
`UpdateTime 31` transitions to `finalizingOffchainClosing`. -/
theorem C2_strict_deadline_witness :
    waitingOffchainClosing.UpdateTime ⟨⟨⟨20⟩⟩, ⟨7⟩, 3, 30, true⟩ 30 =
        ⟨some (.waitingOffchainClosing ⟨⟨⟨20⟩⟩, ⟨7⟩, 3, 30, true⟩), [], none⟩ ∧
      (waitingOffchainClosing.UpdateTime ⟨⟨⟨20⟩⟩, ⟨7⟩, 3, 30, true⟩ 31).state =
        some (.finalizingOffchainClosing ⟨⟨⟨20⟩⟩, ⟨7⟩, true⟩) :=
  ⟨(C2_strict_deadline ⟨⟨⟨20⟩⟩, ⟨7⟩, 3, 30, true⟩ 30).1 (by decide),
    (C2_strict_deadline ⟨⟨⟨20⟩⟩, ⟨7⟩, 3, 30, true⟩ 31).2 (by decide)⟩

/-- Claim C3: `attemptingOffchainClosing.UpdateState` on a
`ProposedUnanimousAssertEvent` with remote sequence number `R` at time `t`
behaves by trichotomy on `R` versus the local `sequenceNum`: `R` lower —
unchanged, no messages, no error; `R` higher — `false` sent on the handoff
when present, `nil` state and a non-nil error; `R` equal — transition to
`waitingOffchainClosing` with deadline `t + GracePeriod` (`uint64`
addition), carrying the same assertion and the same handoff channel. -/
theorem C3_proposed_trichotomy (bot : attemptingOffchainClosing) (R t : Nat) :
    (R < bot.sequenceNum →
      bot.UpdateState (.ProposedUnanimousAssertEvent R) t =
        ⟨some (.attemptingOffchainClosing bot), none, [], none, [], 0⟩) ∧
    (bot.sequenceNum < R →
      bot.UpdateState (.ProposedUnanimousAssertEvent R) t =
        ⟨none, none, [], some (.errorsNew supersededMessage),
          (if bot.retChan then [false] else []), 0⟩) ∧
    (R = bot.sequenceNum →
      bot.UpdateState (.ProposedUnanimousAssertEvent R) t =
        ⟨some (.waitingOffchainClosing
            ⟨bot.validatorConfig, bot.validatorCore, bot.assertion,
              (t + bot.validatorConfig.config.GracePeriod) % 2 ^ 64, bot.retChan⟩),
          none, [], none, [], 0⟩) := by
  refine ⟨?_, ?_, ?_⟩
  · intro hlt
    simp [attemptingOffchainClosing.UpdateState, hlt]
  · intro hgt
    simp [attemptingOffchainClosing.UpdateState, hgt, Nat.lt_asymm hgt]
  · intro heq
    subst heq
    simp [attemptingOffchainClosing.UpdateState, validatorCore.GetCore]

/-- Witness for C3 with local sequence number 5 at time 10 and grace period
20: remote 2 is ignored, remote 9 aborts with `false` sent, remote 5
transitions to `waitingOffchainClosing` with deadline 30. -/
theorem C3_proposed_trichotomy_witness :
    attemptingOffchainClosing.UpdateState ⟨⟨⟨20⟩⟩, ⟨7⟩, 5, 3, true⟩
        (.ProposedUnanimousAssertEvent 2) 10 =
      ⟨some (.attemptingOffchainClosing ⟨⟨⟨20⟩⟩, ⟨7⟩, 5, 3, true⟩), none, [], none, [], 0⟩ ∧
    attemptingOffchainClosing.UpdateState ⟨⟨⟨20⟩⟩, ⟨7⟩, 5, 3, true⟩
        (.ProposedUnanimousAssertEvent 9) 10 =
      ⟨none, none, [], some (.errorsNew supersededMessage), [false], 0⟩ ∧
    attemptingOffchainClosing.UpdateState ⟨⟨⟨20⟩⟩, ⟨7⟩, 5, 3, true⟩
        (.ProposedUnanimousAssertEvent 5) 10 =
      ⟨some (.waitingOffchainClosing ⟨⟨⟨20⟩⟩, ⟨7⟩, 3, 30, true⟩), none, [], none, [], 0⟩ := by
  refine ⟨(C3_proposed_trichotomy ⟨⟨⟨20⟩⟩, ⟨7⟩, 5, 3, true⟩ 2 10).1 (by decide), ?_, ?_⟩
  · have h := (C3_proposed_trichotomy ⟨⟨⟨20⟩⟩, ⟨7⟩, 5, 3, true⟩ 9 10).2.1 (by decide)
    simpa using h
  · have h := (C3_proposed_trichotomy ⟨⟨⟨20⟩⟩, ⟨7⟩, 5, 3, true⟩ 5 10).2.2 rfl
    simpa using h

/-- Claim C4: a `SendConfirmUnanimousAssertedMessage` is emitted exactly
once per round, and only on the time-triggered
`waitingOffchainClosing → finalizingOffchainClosing` transition: that
`UpdateTime` call returns exactly one message, carrying the current inbox's
content hash and the round's assertion; every other call on any of the four
closing states returns an empty message list; and over any driver run at
most one outgoing message is ever produced. -/
theorem C4_confirm_message_exactly_once :
    (∀ (bot : waitingOffchainClosing) (t : Nat), bot.deadline < t →
      bot.UpdateTime t =
        ⟨some (.finalizingOffchainClosing
            ⟨bot.validatorConfig, bot.validatorCore, bot.retChan⟩),
          [.SendConfirmUnanimousAssertedMessage bot.validatorCore.inboxReceiveHash
            bot.assertion],
          none⟩) ∧
    (∀ (bot : waitingOffchainClosing) (t : Nat), t ≤ bot.deadline →
      (bot.UpdateTime t).msgs = []) ∧
    (∀ (bot : attemptingUnanimousClosing) (t : Nat), (bot.UpdateTime t).msgs = []) ∧
    (∀ (bot : attemptingOffchainClosing) (t : Nat), (bot.UpdateTime t).msgs = []) ∧
    (∀ (bot : finalizingOffchainClosing) (t : Nat), (bot.UpdateTime t).msgs = []) ∧
    (∀ (bot : attemptingUnanimousClosing) (ev : Event) (t : Nat),
      (bot.UpdateState ev t).msgs = []) ∧
    (∀ (bot : attemptingOffchainClosing) (ev : Event) (t : Nat),
      (bot.UpdateState ev t).msgs = []) ∧
    (∀ (bot : waitingOffchainClosing) (ev : Event) (t : Nat),
      (bot.UpdateState ev t).msgs = []) ∧
    (∀ (bot : finalizingOffchainClosing) (ev : Event) (t : Nat),
      (bot.UpdateState ev t).msgs = []) ∧
    (∀ (s : ValidatorState) (inputs : List DriverInput),
      (driverRun (some s) inputs).msgs.length ≤ 1) := by
  refine ⟨?_, ?_, ?_, ?_, ?_, ?_, ?_, ?_, ?_, ?_⟩
  · intro bot t hlt
    simp [waitingOffchainClosing.UpdateTime, hlt]
  · intro bot t hle
    simp [waitingOffchainClosing.UpdateTime, Nat.not_lt.mpr hle]
  · intro bot t
    rfl
  · intro bot t
    rfl
  · intro bot t
    rfl
  · intro bot ev t
    cases ev <;> rfl
  · intro bot ev t
    cases ev <;> simp only [attemptingOffchainClosing.UpdateState] <;>
      first | rfl | (split_ifs <;> rfl)
  · intro bot ev t
    cases ev <;> rfl
  · intro bot ev t
    cases ev <;> rfl
  · intro s inputs
    have h := driverRun_msg_bound inputs (some s)
    have h2 := msgPot_le_one s
    simp only [msgPotO] at h
    omega

/-- Witness for C4 at deadline 30, inbox hash 7, assertion 3: `UpdateTime
31` emits exactly the confirm message and `UpdateTime 29` emits nothing. -/
theorem C4_confirm_message_exactly_once_witness :
    waitingOffchainClosing.UpdateTime ⟨⟨⟨20⟩⟩, ⟨7⟩, 3, 30, true⟩ 31 =
        ⟨some (.finalizingOffchainClosing ⟨⟨⟨20⟩⟩, ⟨7⟩, true⟩),
          [.SendConfirmUnanimousAssertedMessage 7 3], none⟩ ∧
      (waitingOffchainClosing.UpdateTime ⟨⟨⟨20⟩⟩, ⟨7⟩, 3, 30, true⟩ 29).msgs = [] :=
  ⟨C4_confirm_message_exactly_once.1 ⟨⟨⟨20⟩⟩, ⟨7⟩, 3, 30, true⟩ 31 (by decide),
    C4_confirm_message_exactly_once.2.1 ⟨⟨⟨20⟩⟩, ⟨7⟩, 3, 30, true⟩ 29 (by decide)⟩

/-- Claim C5: on the success paths — `attemptingUnanimousClosing` on a
`FinalUnanimousAssertEvent` and `finalizingOffchainClosing` on a
`ConfirmedUnanimousAssertEvent` — `UpdateState` sends `true` on the
handoff when present, invokes `DeliverMessagesToVM` exactly once, returns
the terminal waiting-observer successor, produces zero outgoing messages,
and returns a `nil` error. -/
theorem C5_success_paths :
    (∀ (bot : attemptingUnanimousClosing) (t : Nat),
      bot.UpdateState .FinalUnanimousAssertEvent t =
        ⟨some (NewWaitingObserver bot.validatorConfig bot.validatorCore), none, [], none,
          (if bot.retChan then [true] else []), 1⟩) ∧
    (∀ (bot : finalizingOffchainClosing) (t : Nat),
      bot.UpdateState .ConfirmedUnanimousAssertEvent t =
        ⟨some (NewWaitingObserver bot.validatorConfig bot.validatorCore), none, [], none,
          (if bot.retChan then [true] else []), 1⟩) :=
  ⟨fun _ _ => rfl, fun _ _ => rfl⟩

/-- Claim C6: on every event not handled by their type-switches,
`attemptingUnanimousClosing.UpdateState` (unhandled: confirmed and other
events) and `finalizingOffchainClosing.UpdateState` (unhandled: everything
but confirmed) return a `nil` next state with the desynchronization error
and send nothing on the handoff — asymmetric with
`attemptingOffchainClosing` and `waitingOffchainClosing`, whose `default`
branches send `false` when the handoff is present. -/
theorem C6_desync_no_handoff_send :
    (∀ (bot : attemptingUnanimousClosing) (t : Nat),
      bot.UpdateState .ConfirmedUnanimousAssertEvent t =
        ⟨none, none, [], some desyncError, [], 0⟩) ∧
    (∀ (bot : attemptingUnanimousClosing) (n t : Nat),
      bot.UpdateState (.otherEvent n) t = ⟨none, none, [], some desyncError, [], 0⟩) ∧
    (∀ (bot : finalizingOffchainClosing) (R t : Nat),
      bot.UpdateState (.ProposedUnanimousAssertEvent R) t =
        ⟨none, none, [], some desyncError, [], 0⟩) ∧
    (∀ (bot : finalizingOffchainClosing) (t : Nat),
      bot.UpdateState .DisputableAssertionEvent t =
        ⟨none, none, [], some desyncError, [], 0⟩) ∧
    (∀ (bot : finalizingOffchainClosing) (t : Nat),
      bot.UpdateState .FinalUnanimousAssertEvent t =
        ⟨none, none, [], some desyncError, [], 0⟩) ∧
    (∀ (bot : finalizingOffchainClosing) (n t : Nat),
      bot.UpdateState (.otherEvent n) t = ⟨none, none, [], some desyncError, [], 0⟩) ∧
    (∀ (bot : attemptingOffchainClosing) (n t : Nat),
      (bot.UpdateState (.otherEvent n) t).sent = (if bot.retChan then [false] else [])) ∧
    (∀ (bot : waitingOffchainClosing) (n t : Nat),
      (bot.UpdateState (.otherEvent n) t).sent = (if bot.retChan then [false] else [])) :=
  ⟨fun _ _ => rfl, fun _ _ _ => rfl, fun _ _ _ => rfl, fun _ _ => rfl,
    fun _ _ => rfl, fun _ _ _ => rfl, fun _ _ _ => rfl, fun _ _ _ => rfl⟩

/-- Claim C7: `waitingOffchainClosing.UpdateState` terminates the round on
every possible event: a proposed-unanimous event yields the
superseded-by-sequence-number error, a final-unanimous event the
superseded-by-final-assert error, and any other event — including
`DisputableAssertionEvent`, which is not ignored here unlike in the other
states — the desynchronization error; in every case `false` is sent on
the handoff when present and a `nil` next state is returned. -/
theorem C7_waiting_terminates_on_every_event (bot : waitingOffchainClosing) (t : Nat) :
    (∀ R, bot.UpdateState (.ProposedUnanimousAssertEvent R) t =
      ⟨none, none, [], some (.errorsNew supersededBySeqMessage),
        (if bot.retChan then [false] else []), 0⟩) ∧
    (bot.UpdateState .FinalUnanimousAssertEvent t =
      ⟨none, none, [], some (.errorsNew supersededByFinalMessage),
        (if bot.retChan then [false] else []), 0⟩) ∧
    (bot.UpdateState .DisputableAssertionEvent t =
      ⟨none, none, [], some desyncError, (if bot.retChan then [false] else []), 0⟩) ∧
    (bot.UpdateState .ConfirmedUnanimousAssertEvent t =
      ⟨none, none, [], some desyncError, (if bot.retChan then [false] else []), 0⟩) ∧
    (∀ n, bot.UpdateState (.otherEvent n) t =
      ⟨none, none, [], some desyncError, (if bot.retChan then [false] else []), 0⟩) :=
  ⟨fun _ => rfl, rfl, rfl, rfl, fun _ => rfl⟩

/-- Claim C8: `UpdateTime` is idempotent on non-triggering inputs: the
three unconditional no-op states at every time, `waitingOffchainClosing`
at every time not exceeding its deadline, and any number of repeated
non-triggering `advanceTime` calls leaves the state unchanged with no
sends, no messages, no VM deliveries. -/
theorem C8_updateTime_idempotent :
    (∀ (bot : attemptingUnanimousClosing) (t : Nat),
      bot.UpdateTime t = ⟨some (.attemptingUnanimousClosing bot), [], none⟩) ∧
    (∀ (bot : attemptingOffchainClosing) (t : Nat),
      bot.UpdateTime t = ⟨some (.attemptingOffchainClosing bot), [], none⟩) ∧
    (∀ (bot : finalizingOffchainClosing) (t : Nat),
      bot.UpdateTime t = ⟨some (.finalizingOffchainClosing bot), [], none⟩) ∧
    (∀ (bot : waitingOffchainClosing) (t : Nat), t ≤ bot.deadline →
      bot.UpdateTime t = ⟨some (.waitingOffchainClosing bot), [], none⟩) ∧
    (∀ (s : ValidatorState) (ts : List Nat),
      (∀ t ∈ ts, nonTriggering s t = true) →
      driverRun (some s) (ts.map DriverInput.advanceTime) = ⟨some s, [], [], 0⟩) := by
  refine ⟨fun _ _ => rfl, fun _ _ => rfl, fun _ _ => rfl, ?_, ?_⟩
  · intro bot t hle
    simp [waitingOffchainClosing.UpdateTime, Nat.not_lt.mpr hle]
  · intro s ts
    induction ts with
    | nil => intro _; rfl
    | cons t rest ih =>
      intro hall
      have ht : nonTriggering s t = true := hall t (List.mem_cons_self t rest)
      have hrest : ∀ u ∈ rest, nonTriggering s u = true :=
        fun u hu => hall u (List.mem_cons_of_mem t hu)
      have hr := ih hrest
      cases s with
      | waitingObserver c k => simp [driverRun, closingStep]
      | attemptingUnanimousClosing bot =>
        simp only [List.map_cons, driverRun, closingStep, liftTime,
          attemptingUnanimousClosing.UpdateTime]
        simp [hr]
      | attemptingOffchainClosing bot =>
        simp only [List.map_cons, driverRun, closingStep, liftTime,
          attemptingOffchainClosing.UpdateTime]
        simp [hr]
      | finalizingOffchainClosing bot =>
        simp only [List.map_cons, driverRun, closingStep, liftTime,
          finalizingOffchainClosing.UpdateTime]
        simp [hr]
      | waitingOffchainClosing bot =>
        have hle : t ≤ bot.deadline := by simpa [nonTriggering] using ht
        simp only [List.map_cons, driverRun, closingStep, liftTime,
          waitingOffchainClosing.UpdateTime, Nat.not_lt.mpr hle, if_false]
        simp [hr, Nat.not_lt.mpr hle]

/-- Witness for C8 at deadline 30: three repeated sub-deadline
`advanceTime` calls leave the waiting state unchanged with no output, and
one `UpdateTime` at the deadline itself is a no-op. -/
theorem C8_updateTime_idempotent_witness :
    driverRun (some (.waitingOffchainClosing ⟨⟨⟨20⟩⟩, ⟨7⟩, 3, 30, true⟩))
        ([30, 10, 30].map DriverInput.advanceTime) =
      ⟨some (.waitingOffchainClosing ⟨⟨⟨20⟩⟩, ⟨7⟩, 3, 30, true⟩), [], [], 0⟩ ∧
    waitingOffchainClosing.UpdateTime ⟨⟨⟨20⟩⟩, ⟨7⟩, 3, 30, true⟩ 30 =
      ⟨some (.waitingOffchainClosing ⟨⟨⟨20⟩⟩, ⟨7⟩, 3, 30, true⟩), [], none⟩ :=
  ⟨C8_updateTime_idempotent.2.2.2.2
      (.waitingOffchainClosing ⟨⟨⟨20⟩⟩, ⟨7⟩, 3, 30, true⟩) [30, 10, 30] (by decide),
    C8_updateTime_idempotent.2.2.2.1 ⟨⟨⟨20⟩⟩, ⟨7⟩, 3, 30, true⟩ 30 (by decide)⟩

/-- Claim C9: for every one of the four closing states and every event and
time, the `challengeState` component returned by `UpdateState` is `nil`. -/
theorem C9_challenge_always_nil :
    (∀ (bot : attemptingUnanimousClosing) (ev : Event) (t : Nat),
      (bot.UpdateState ev t).challenge = none) ∧
    (∀ (bot : attemptingOffchainClosing) (ev : Event) (t : Nat),
      (bot.UpdateState ev t).challenge = none) ∧
    (∀ (bot : waitingOffchainClosing) (ev : Event) (t : Nat),
      (bot.UpdateState ev t).challenge = none) ∧
    (∀ (bot : finalizingOffchainClosing) (ev : Event) (t : Nat),
      (bot.UpdateState ev t).challenge = none) := by
  refine ⟨?_, ?_, ?_, ?_⟩ <;>
    intro bot ev t <;>
    cases ev <;>
    first
    | rfl
    | (simp only [attemptingOffchainClosing.UpdateState]; split_ifs <;> rfl)

/-- Claim C10: for every one of the four closing states and every event and
time, `UpdateState` returns a non-nil error if and only if it returns a
`nil` next state. -/
theorem C10_nil_state_iff_error :
    (∀ (bot : attemptingUnanimousClosing) (ev : Event) (t : Nat),
      ((bot.UpdateState ev t).state = none ↔ (bot.UpdateState ev t).err ≠ none)) ∧
    (∀ (bot : attemptingOffchainClosing) (ev : Event) (t : Nat),
      ((bot.UpdateState ev t).state = none ↔ (bot.UpdateState ev t).err ≠ none)) ∧
    (∀ (bot : waitingOffchainClosing) (ev : Event) (t : Nat),
      ((bot.UpdateState ev t).state = none ↔ (bot.UpdateState ev t).err ≠ none)) ∧
    (∀ (bot : finalizingOffchainClosing) (ev : Event) (t : Nat),
      ((bot.UpdateState ev t).state = none ↔ (bot.UpdateState ev t).err ≠ none)) := by
  refine ⟨?_, ?_, ?_, ?_⟩
  · intro bot ev t
    cases ev <;> simp [attemptingUnanimousClosing.UpdateState]
  · intro bot ev t
    cases ev <;> simp only [attemptingOffchainClosing.UpdateState] <;>
      first | (split_ifs <;> simp) | simp
  · intro bot ev t
    cases ev <;> simp [waitingOffchainClosing.UpdateState]
  · intro bot ev t
    cases ev <;> simp [finalizingOffchainClosing.UpdateState]

/-- Witness for C10: concrete instances of the equivalence, one per
closing state, on a success event and on a failure event. -/
theorem C10_nil_state_iff_error_witness :
    ((attemptingUnanimousClosing.UpdateState ⟨⟨⟨20⟩⟩, ⟨7⟩, 3, true⟩
        .ConfirmedUnanimousAssertEvent 0).state = none ↔
      (attemptingUnanimousClosing.UpdateState ⟨⟨⟨20⟩⟩, ⟨7⟩, 3, true⟩
        .ConfirmedUnanimousAssertEvent 0).err ≠ none) ∧
    ((attemptingOffchainClosing.UpdateState ⟨⟨⟨20⟩⟩, ⟨7⟩, 5, 3, true⟩
        (.ProposedUnanimousAssertEvent 5) 10).state = none ↔
      (attemptingOffchainClosing.UpdateState ⟨⟨⟨20⟩⟩, ⟨7⟩, 5, 3, true⟩
        (.ProposedUnanimousAssertEvent 5) 10).err ≠ none) ∧
    ((waitingOffchainClosing.UpdateState ⟨⟨⟨20⟩⟩, ⟨7⟩, 3, 30, true⟩
        .DisputableAssertionEvent 10).state = none ↔
      (waitingOffchainClosing.UpdateState ⟨⟨⟨20⟩⟩, ⟨7⟩, 3, 30, true⟩
        .DisputableAssertionEvent 10).err ≠ none) ∧
    ((finalizingOffchainClosing.UpdateState ⟨⟨⟨20⟩⟩, ⟨7⟩, true⟩
        .ConfirmedUnanimousAssertEvent 10).state = none ↔
      (finalizingOffchainClosing.UpdateState ⟨⟨⟨20⟩⟩, ⟨7⟩, true⟩
        .ConfirmedUnanimousAssertEvent 10).err ≠ none) :=
  ⟨C10_nil_state_iff_error.1 ⟨⟨⟨20⟩⟩, ⟨7⟩, 3, true⟩ .ConfirmedUnanimousAssertEvent 0,
    C10_nil_state_iff_error.2.1 ⟨⟨⟨20⟩⟩, ⟨7⟩, 5, 3, true⟩ (.ProposedUnanimousAssertEvent 5) 10,
    C10_nil_state_iff_error.2.2.1 ⟨⟨⟨20⟩⟩, ⟨7⟩, 3, 30, true⟩ .DisputableAssertionEvent 10,
    C10_nil_state_iff_error.2.2.2 ⟨⟨⟨20⟩⟩, ⟨7⟩, true⟩ .ConfirmedUnanimousAssertEvent 10⟩
